import Mathlib

/-!
# Tank RTC SDK — verification of the session/protocol layer

Shallow embedding of the core logic of `src/index.js` (class `TankRTC`):

* the binary video-frame codec (`sendVideoFrame` encode path,
  `handleIncomingVideoMessage` decode/validate path),
* the JPEG dimension scanner (`getJPEGDimensions`),
* the participant frame cache and its eviction sweep (`receivedVideos`,
  `cleanupOldVideos`, the `video-remove` control message handler),
* the leg-lifecycle operations (`startSendingAudio`, `startListeningAudio`,
  `startSendingVideo`, `startViewingVideo`, `stopSendingAudio`,
  `stopSendingVideo`, `stopViewingVideo`, `initializeAudioConnection`,
  `initializeVideoConnection`).

Byte buffers are `List Nat` (each entry one byte of the wire message; the
JS side stores them in `ArrayBuffer`/`Uint8Array`).  Strings are identified
with their UTF-8 byte sequences: `TextEncoder.encode` is the identity on
this representation and `TextDecoder.decode` of the sliced bytes followed by
string comparison coincides with byte-list comparison for valid UTF-8 text.
JS `Number` arithmetic on frame ages is exact for the integer comparisons
performed here (all values stay far below 2^53), so ages are compared in
integer nanoseconds.
-/

namespace TankRTC

/-! ## Byte-level readers and writers

`DataView.getUint32 / getBigUint64 / setUint32 / setBigUint64` with
big-endian byte order, as used by `sendVideoFrame` and
`handleIncomingVideoMessage`.  The option-valued readers return `none`
exactly when the 4- or 8-byte window is not entirely inside the buffer;
in JS that read would throw a `RangeError`, so `none` marks an
out-of-bounds access. -/

/-- Big-endian bytes of a 32-bit value, as written by `setUint32(…, false)`
(the JS call wraps its argument modulo 2^32). -/
def u32BE (n : Nat) : List Nat :=
  [n / 2 ^ 24 % 256, n / 2 ^ 16 % 256, n / 2 ^ 8 % 256, n % 256]

/-- Big-endian bytes of a 64-bit value, as written by `setBigUint64(…, false)`. -/
def u64BE (n : Nat) : List Nat :=
  [n / 2 ^ 56 % 256, n / 2 ^ 48 % 256, n / 2 ^ 40 % 256, n / 2 ^ 32 % 256,
   n / 2 ^ 24 % 256, n / 2 ^ 16 % 256, n / 2 ^ 8 % 256, n % 256]

/-- `DataView.getUint32(off, false)`: `none` when the window overruns. -/
def readU32BE (data : List Nat) (off : Nat) : Option Nat :=
  if off + 4 ≤ data.length then
    some ((((data.getD off 0 * 256 + data.getD (off + 1) 0) * 256 +
        data.getD (off + 2) 0) * 256) + data.getD (off + 3) 0)
  else none

/-- `DataView.getBigUint64(off, false)`: `none` when the window overruns. -/
def readU64BE (data : List Nat) (off : Nat) : Option Nat :=
  if off + 8 ≤ data.length then
    some (data.getD off 0 * 2 ^ 56 + data.getD (off + 1) 0 * 2 ^ 48 +
      data.getD (off + 2) 0 * 2 ^ 40 + data.getD (off + 3) 0 * 2 ^ 32 +
      data.getD (off + 4) 0 * 2 ^ 24 + data.getD (off + 5) 0 * 2 ^ 16 +
      data.getD (off + 6) 0 * 2 ^ 8 + data.getD (off + 7) 0)
  else none

/-! ## Frame codec -/

/-- The decoded video-frame envelope: identity (UTF-8 bytes), capture
timestamp in nanoseconds, frame number, JPEG payload bytes. -/
structure Frame where
  identity : List Nat
  timestamp : Nat
  frameNumber : Nat
  payload : List Nat
deriving DecidableEq, Repr

/-- Reasons for which `handleIncomingVideoMessage` discards a message while
parsing the header (each is one of its early `return` statements).
`oob` is the branch for an unchecked out-of-bounds multi-byte read; the
decoder is proved never to produce it. -/
inductive DecodeErr
  | truncated
  | invalidIdentityLength
  | blankIdentity
  | emptyPayload
  | oob
deriving DecidableEq, Repr

/-- Result of parsing the wire header. -/
inductive DecodeResult
  | err (e : DecodeErr)
  | ok (f : Frame)
deriving DecidableEq, Repr

/-- ASCII bytes removed by JS `String.trim`.  The identity-blank check
`clientID.trim() === ''` is modelled at the byte level: for ASCII text
this is exact (non-ASCII bytes always decode to non-whitespace code
points or multi-byte characters whose lead/continuation bytes are ≥ 0x80,
outside this set). -/
def isJsWhitespaceByte (b : Nat) : Bool :=
  b == 9 || b == 10 || b == 11 || b == 12 || b == 13 || b == 32

/-- The header-parsing prefix of `handleIncomingVideoMessage`
(src/index.js lines 856–881): minimum-size check, big-endian identity
length, identity-length bounds, identity slice and blank check, 8-byte
timestamp, 4-byte frame number, payload slice and non-empty check. -/
def decodeFrame (data : List Nat) : DecodeResult :=
  if data.length < 20 then .err .truncated
  else
    match readU32BE data 0 with
    | none => .err .oob
    | some idLen =>
      if idLen = 0 || idLen > 1000 || idLen + 16 > data.length then
        .err .invalidIdentityLength
      else
        let ident := (data.drop 4).take idLen
        if ident.all isJsWhitespaceByte then .err .blankIdentity
        else
          match readU64BE data (4 + idLen), readU32BE data (12 + idLen) with
          | some ts, some fn =>
            let payload := data.drop (16 + idLen)
            if payload.length = 0 then .err .emptyPayload
            else .ok ⟨ident, ts, fn, payload⟩
          | _, _ => .err .oob

/-- The wire message built by `sendVideoFrame` (src/index.js lines
976–984): 4-byte big-endian identity length, identity bytes, 8-byte
big-endian capture timestamp, 4-byte big-endian frame number, payload. -/
def encodeFrame (identity : List Nat) (ts seq : Nat) (payload : List Nat) : List Nat :=
  u32BE identity.length ++ identity ++ u64BE ts ++ u32BE seq ++ payload

/-! ## JPEG dimension scanner (`getJPEGDimensions`, src/index.js 1477–1510)

The scanner walks the payload as a `Uint8Array`.  `byteAt` models
`Uint8Array` indexing for in-range indices (entries are stored modulo
256).  An index one past the end returns JS `undefined`, which the only
arithmetic context that can reach it — the bitwise-or building the segment
length — coerces to 0; `byteAt` returns 0 there as well, so the scanner's
value semantics match JS exactly.  `jpegScanAux` additionally records every
index the JS code would read, so out-of-range accesses are observable. -/

/-- `Uint8Array` indexing with the JS coercion of `undefined` to 0 in the
bitwise contexts where an out-of-range read can occur. -/
def byteAt (data : List Nat) (i : Nat) : Nat :=
  data.getD i 0 % 256

/-- Image dimensions read from a SOF segment. -/
structure Dims where
  width : Nat
  height : Nat
deriving DecidableEq, Repr

/-- The scan loop of `getJPEGDimensions`, with the list of indices the JS
code reads.  One step per loop iteration; the offset strictly increases, so
`data.length` fuel always suffices (when fuel would run out, the loop guard
`offset < data.length - 1` has already failed). -/
def jpegScanAux (data : List Nat) : Nat → Nat → Option Dims × List Nat
  | _, 0 => (none, [])
  | offset, fuel + 1 =>
    if offset + 1 < data.length then
      if byteAt data offset = 255 && byteAt data (offset + 1) != 0 then
        let marker := byteAt data (offset + 1)
        if 192 ≤ marker ∧ marker ≤ 195 ∧ offset + 9 < data.length then
          (some ⟨byteAt data (offset + 7) * 256 + byteAt data (offset + 8),
                 byteAt data (offset + 5) * 256 + byteAt data (offset + 6)⟩,
           [offset, offset + 1, offset + 5, offset + 6, offset + 7, offset + 8])
        else
          if offset + 2 < data.length then
            let segLen := byteAt data (offset + 2) * 256 + byteAt data (offset + 3)
            let rest := jpegScanAux data (offset + 2 + segLen) fuel
            (rest.1, [offset, offset + 1, offset + 2, offset + 3] ++ rest.2)
          else (none, [offset, offset + 1])
      else
        let rest := jpegScanAux data (offset + 1) fuel
        (rest.1, [offset, offset + 1] ++ rest.2)
    else (none, [])

/-- `getJPEGDimensions(data)`: start at offset 2 (past the SOI marker);
returns `none` when no parsable SOF segment is found. -/
def getJPEGDimensions (data : List Nat) : Option Dims :=
  (jpegScanAux data 2 data.length).1

/-! ## Controller state

The mutable fields of the `TankRTC` object that the session/protocol layer
reads and writes.  WebSocket, peer-connection, data-channel, media-stream
and blob-URL objects are represented by generation numbers drawn from the
`fresh` counter, so "the same object" is "the same number".  A connection
slot holding `some g` is a live, open resource `g`; `none` is JS `null`
(a reference to an already-dead socket holds no observable state and is
modelled as `none`).  `revoked` collects the blob URLs passed to
`URL.revokeObjectURL`. -/

/-- One cache entry of `receivedVideos`: blob URL handle, the frame's
capture timestamp in nanoseconds, and its frame number. -/
structure VideoData where
  url : Nat
  timestamp : Nat
  frameNumber : Nat
deriving DecidableEq, Repr

/-- A leg toggle kind, the first argument of `onAudioStateChange` /
`onVideoStateChange`. -/
inductive LegKind
  | sending
  | listening
  | viewing
deriving DecidableEq, Repr

/-- Observable effects: callback invocations and best-effort channel
notices, in the order the code produces them. -/
inductive Event
  | audioStateChange (kind : LegKind) (active : Bool)
  | videoStateChange (kind : LegKind) (active : Bool)
  | videoSourceAdd (id : List Nat)
  | videoSourceRemove (id : List Nat)
  | videoFrameUpdate (id : List Nat)
  | errorEvent
  | sentStopSending
  | sentStopVideo
deriving DecidableEq, Repr

/-- The controller's mutable state (the relevant fields of the `TankRTC`
instance). -/
structure SDKState where
  isSendingAudio : Bool
  isListeningAudio : Bool
  isSendingVideo : Bool
  isViewingVideo : Bool
  audioWs : Option Nat
  audioPc : Option Nat
  videoWs : Option Nat
  videoPc : Option Nat
  videoDc : Option Nat
  localStream : Option Nat
  videoElement : Bool
  videoInterval : Bool
  videoCleanupInterval : Bool
  receivedVideos : List (List Nat × VideoData)
  revoked : List Nat
  fresh : Nat
deriving DecidableEq, Repr

/-- The state right after the constructor runs. -/
def initialState : SDKState where
  isSendingAudio := false
  isListeningAudio := false
  isSendingVideo := false
  isViewingVideo := false
  audioWs := none
  audioPc := none
  videoWs := none
  videoPc := none
  videoDc := none
  localStream := none
  videoElement := false
  videoInterval := false
  videoCleanupInterval := false
  receivedVideos := []
  revoked := []
  fresh := 0

/-- The configuration fields the video pipeline reads
(`config.videoWidth`, `config.videoHeight`). -/
structure Config where
  videoWidth : Nat
  videoHeight : Nat
deriving DecidableEq, Repr

/-- `DEFAULT_CONFIG`: 64 × 64. -/
def defaultConfig : Config := ⟨64, 64⟩

/-! JS `Map` operations on the insertion-ordered association list backing
`receivedVideos`. -/

/-- `Map.get`. -/
def mapLookup (k : List Nat) : List (List Nat × VideoData) → Option VideoData
  | [] => none
  | e :: rest => if e.1 = k then some e.2 else mapLookup k rest

/-- `Map.set`: updates in place, else appends (insertion order preserved). -/
def mapSet (k : List Nat) (v : VideoData) :
    List (List Nat × VideoData) → List (List Nat × VideoData)
  | [] => [(k, v)]
  | e :: rest => if e.1 = k then (k, v) :: rest else e :: mapSet k v rest

/-- `Map.delete`. -/
def mapDelete (k : List Nat) :
    List (List Nat × VideoData) → List (List Nat × VideoData)
  | [] => []
  | e :: rest => if e.1 = k then rest else e :: mapDelete k rest

/-! ## Inbound frame pipeline (`handleIncomingVideoMessage`, 853–944) -/

/-- Which branch of `handleIncomingVideoMessage` a message takes.  Every
non-`accepted` branch is one of the function's silent early returns ("keep
last good image"). -/
inductive FrameOutcome
  | decodeFailed (e : DecodeErr)
  | stale
  | jpegTooShort
  | notJpeg
  | unparseable
  | wrongDims
  | accepted (isNew : Bool)
deriving DecidableEq, Repr

/-- `handleIncomingVideoMessage(data)` at wall-clock time `now` (the
nanosecond value of `BigInt(Date.now()) * 1000000n`).  Parses the header
(`decodeFrame`), drops frames older than 1000 ms
(`frameAgeMs > 1000` ⟺ `timestamp + 1e9 < now`, exact for these integer
magnitudes), checks the 2-byte JPEG magic, scans the dimensions and
compares them with the configured size, then stores the frame under a
fresh blob URL and fires `onVideoSourceAdd` for a new participant or
`onVideoFrameUpdate` otherwise.  The prior entry's URL is not revoked. -/
def handleIncomingVideoMessage (cfg : Config) (now : Nat) (data : List Nat)
    (s : SDKState) : SDKState × List Event × FrameOutcome :=
  match decodeFrame data with
  | .err e => (s, [], .decodeFailed e)
  | .ok f =>
    if f.timestamp + 1000000000 < now then (s, [], .stale)
    else if f.payload.length < 2 then (s, [], .jpegTooShort)
    else if byteAt f.payload 0 != 255 || byteAt f.payload 1 != 216 then
      (s, [], .notJpeg)
    else
      match getJPEGDimensions f.payload with
      | none => (s, [], .unparseable)
      | some dims =>
        if dims.width != cfg.videoWidth || dims.height != cfg.videoHeight then
          (s, [], .wrongDims)
        else
          let url := s.fresh
          let isNew := (mapLookup f.identity s.receivedVideos).isNone
          let s1 := { s with
            receivedVideos :=
              mapSet f.identity ⟨url, f.timestamp, f.frameNumber⟩ s.receivedVideos,
            fresh := s.fresh + 1 }
          (s1,
           [if isNew then .videoSourceAdd f.identity
            else .videoFrameUpdate f.identity],
           .accepted isNew)

/-- `cleanupOldVideos()` (714–727): remove every entry whose stored capture
timestamp is more than 2000 ms old (`frameAgeMs > 2000` ⟺
`timestamp + 2e9 < now`), revoking its blob URL.  The function notifies no
observer and returns nothing, hence the empty event list. -/
def cleanupOldVideos (now : Nat) (s : SDKState) : SDKState × List Event :=
  let isOld := fun (e : List Nat × VideoData) => e.2.timestamp + 2000000000 < now
  ({ s with
      receivedVideos := s.receivedVideos.filter (fun e => ¬ isOld e),
      revoked := s.revoked ++ (s.receivedVideos.filter isOld).map (·.2.url) },
   [])

/-- The `video-remove` control-message branch of the data-channel
`onmessage` handler (240–249): revoke the entry's URL if present, delete
it, and fire `onVideoSourceRemove` (unconditionally). -/
def handleVideoRemove (clientId : List Nat) (s : SDKState) : SDKState × List Event :=
  let s1 := { s with
    revoked := match mapLookup clientId s.receivedVideos with
      | some v => s.revoked ++ [v.url]
      | none => s.revoked,
    receivedVideos := mapDelete clientId s.receivedVideos }
  (s1, [.videoSourceRemove clientId])

/-! ## Leg lifecycle

The asynchronous capability outcomes (microphone and camera permission,
audio WebSocket handshake, video data-channel opening within the 5-second
poll) are supplied by an environment record; the operations below follow
the source's control flow for each outcome. -/

/-- Outcomes of the external asynchronous capabilities during one `start`
call. -/
structure Env where
  micOk : Bool
  cameraOk : Bool
  audioWsOk : Bool
  videoChannelOpens : Bool
deriving DecidableEq, Repr

/-- `isVideoConnectionReady()` (173–176): socket open, peer connection
present, data channel open. -/
def videoConnReady (s : SDKState) : Bool :=
  s.videoWs.isSome && s.videoPc.isSome && s.videoDc.isSome

/-- `initializeVideoConnection()` (1515–1576): if socket, peer connection
and data channel are all open, the existing connection is reused
unchanged; otherwise a new socket and peer connection are created
(the old references are dropped without a close call) and the new data
channel either opens (fresh handle) or does not (`none`). -/
def initializeVideoConnection (env : Env) (s : SDKState) : SDKState :=
  if videoConnReady s then s
  else
    { s with
      videoWs := some s.fresh,
      videoPc := some (s.fresh + 1),
      videoDc := if env.videoChannelOpens then some (s.fresh + 2) else none,
      fresh := s.fresh + 3 }

/-- `initializeAudioConnection()` (1581–1664): early return when the audio
socket is already open; otherwise open a socket and, in its `onopen`
handler, create the peer connection.  On WebSocket error the promise
rejects (`false`). -/
def initializeAudioConnection (env : Env) (s : SDKState) : SDKState × Bool :=
  if s.audioWs.isSome then (s, true)
  else if env.audioWsOk then
    ({ s with audioWs := some s.fresh, audioPc := some (s.fresh + 1),
              fresh := s.fresh + 2 }, true)
  else (s, false)

/-- `startSendingAudio()` (326–381).  Returns the new state, the events,
and whether the call threw to its caller.  Early no-op when already
sending.  Microphone acquisition, then flag set, then unconditional close
of the existing audio socket and peer connection, reconnect
(`initializeAudioConnection` + `resetPeerConnection`), offer, success
event.  The catch reverts the flag, emits one error and re-throws. -/
def startSendingAudio (env : Env) (s : SDKState) : SDKState × List Event × Bool :=
  if s.isSendingAudio then (s, [], false)
  else if ¬ env.micOk then
    ({ s with isSendingAudio := false }, [.errorEvent], true)
  else
    let s1 := { s with localStream := some s.fresh, fresh := s.fresh + 1,
                       isSendingAudio := true,
                       audioWs := none, audioPc := none }
    let r := initializeAudioConnection env s1
    if ¬ r.2 then
      ({ r.1 with isSendingAudio := false }, [.errorEvent], true)
    else
      let s2 := { r.1 with audioPc := some r.1.fresh, fresh := r.1.fresh + 1 }
      (s2, [.audioStateChange .sending true], false)

/-- `startListeningAudio()` (419–469).  Same reconnect sequence without a
media acquisition; the catch reverts the flag and emits one error but does
not re-throw. -/
def startListeningAudio (env : Env) (s : SDKState) : SDKState × List Event × Bool :=
  if s.isListeningAudio then (s, [], false)
  else
    let s1 := { s with isListeningAudio := true,
                       audioWs := none, audioPc := none }
    let r := initializeAudioConnection env s1
    if ¬ r.2 then
      ({ r.1 with isListeningAudio := false }, [.errorEvent], false)
    else
      let s2 := { r.1 with audioPc := some r.1.fresh, fresh := r.1.fresh + 1 }
      (s2, [.audioStateChange .listening true], false)

/-- `startSendingVideo()` (490–609).  Early no-op when already sending.
Camera failure is caught before any flag changes.  Otherwise the video
element is set up, `isSendingVideo` is set, `initializeVideoConnection`
runs, and the code polls for an open data channel; if the channel never
opens the thrown timeout is caught by the outer handler, which emits one
error but neither reverts `isSendingVideo` nor re-throws.  On success the
capture interval starts and `onVideoStateChange('sending', true)` fires. -/
def startSendingVideo (env : Env) (s : SDKState) : SDKState × List Event × Bool :=
  if s.isSendingVideo then (s, [], false)
  else if ¬ env.cameraOk then (s, [.errorEvent], false)
  else
    let s1 := { s with videoElement := true, isSendingVideo := true }
    let s2 := initializeVideoConnection env s1
    if videoConnReady s2 then
      ({ s2 with videoInterval := true }, [.videoStateChange .sending true], false)
    else
      (s2, [.errorEvent], false)

/-- `startViewingVideo()` (668–709).  Sets `isViewingVideo`, reconnects,
polls the channel; a timeout is caught, emitting one error without
reverting the flag or re-throwing.  On success the cleanup interval starts
and `onVideoStateChange('viewing', true)` fires. -/
def startViewingVideo (env : Env) (s : SDKState) : SDKState × List Event × Bool :=
  if s.isViewingVideo then (s, [], false)
  else
    let s1 := { s with isViewingVideo := true }
    let s2 := initializeVideoConnection env s1
    if videoConnReady s2 then
      ({ s2 with videoCleanupInterval := true },
       [.videoStateChange .viewing true], false)
    else
      (s2, [.errorEvent], false)

/-- `stopSendingAudio()` (386–414): best-effort `stop-sending` notice when
the socket is open, stop and drop the local stream, clear the flag, and
always fire `onAudioStateChange('sending', false)` — there is no
already-idle guard. -/
def stopSendingAudio (s : SDKState) : SDKState × List Event :=
  let notices := if s.audioWs.isSome then [Event.sentStopSending] else []
  ({ s with localStream := none, isSendingAudio := false },
   notices ++ [.audioStateChange .sending false])

/-- `stopSendingVideo()` (614–663): best-effort `stop-video` notice when
the data channel is open, clear the capture interval and video element,
clear the flag, close the video connection when the viewing leg is also
idle, and always fire `onVideoStateChange('sending', false)`. -/
def stopSendingVideo (s : SDKState) : SDKState × List Event :=
  let notices := if s.videoDc.isSome then [Event.sentStopVideo] else []
  let s1 := { s with videoInterval := false, videoElement := false,
                     isSendingVideo := false }
  let s2 :=
    if ¬ s1.isSendingVideo && ¬ s1.isViewingVideo then
      { s1 with videoPc := none, videoWs := none, videoDc := none }
    else s1
  (s2, notices ++ [.videoStateChange .sending false])

/-- `stopViewingVideo()` (732–774): clear the flag and the cleanup
interval, fire `onVideoSourceRemove` for every cached participant, revoke
every cached URL and clear the cache, close the video connection when the
sending leg is also idle, and fire `onVideoStateChange('viewing', false)`. -/
def stopViewingVideo (s : SDKState) : SDKState × List Event :=
  let s1 := { s with isViewingVideo := false, videoCleanupInterval := false,
                     revoked := s.revoked ++ s.receivedVideos.map (·.2.url),
                     receivedVideos := [] }
  let s2 :=
    if ¬ s1.isSendingVideo && ¬ s1.isViewingVideo then
      { s1 with videoPc := none, videoWs := none, videoDc := none }
    else s1
  (s2, s.receivedVideos.map (fun e => Event.videoSourceRemove e.1) ++
       [.videoStateChange .viewing false])

/-! ## Concrete fixtures -/

/-- All asynchronous capabilities succeed. -/
def envAllOk : Env := ⟨true, true, true, true⟩

/-- The video data channel never opens within the 5-second poll; everything
else succeeds. -/
def envChannelFails : Env := ⟨true, true, true, false⟩

/-- A state in which the viewing leg is active and holds a fully open video
connection (socket 0, peer connection 1, data channel 2). -/
def openVideoState : SDKState :=
  { initialState with
    isViewingVideo := true, videoCleanupInterval := true,
    videoWs := some 0, videoPc := some 1, videoDc := some 2, fresh := 3 }

/-- Identity bytes of participant `"p1"`. -/
def p1 : List Nat := [112, 49]

/-- A minimal JPEG-like payload: SOI marker, then an SOF0 segment whose
fixed-offset height and width fields both read 64. -/
def jpeg64 : List Nat := [255, 216, 255, 192, 0, 0, 0, 0, 64, 0, 64, 0]

/-- A wire message from `"p1"`: capture timestamp 0 ns, frame number 8,
64 × 64 payload. -/
def frameP1 : List Nat := encodeFrame p1 0 8 jpeg64

/-- A state whose cache already holds a frame from `"p1"` under blob URL 3. -/
def cacheState : SDKState :=
  { initialState with receivedVideos := [(p1, ⟨3, 0, 7⟩)], fresh := 10 }

/-- A state whose cache holds one entry (blob URL 5) with capture
timestamp 0 ns. -/
def staleCacheState : SDKState :=
  { initialState with receivedVideos := [(p1, ⟨5, 0, 1⟩)], fresh := 6 }

/-- A buffer whose 4-byte big-endian header declares an identity length of
1001 with plenty of trailing bytes (total length 1021). -/
def longIdBuf : List Nat := [0, 0, 3, 233] ++ List.replicate 1017 65

/-- Resource-handle freshness invariant: every live connection generation
was drawn from the `fresh` counter.  It holds for `initialState` and is
preserved by every operation; the reconnect theorems assume it to express
"the recreated socket is a different object". -/
def wfState (s : SDKState) : Prop :=
  (∀ g, s.audioWs = some g → g < s.fresh) ∧
  (∀ g, s.audioPc = some g → g < s.fresh) ∧
  (∀ g, s.videoWs = some g → g < s.fresh) ∧
  (∀ g, s.videoPc = some g → g < s.fresh) ∧
  (∀ g, s.videoDc = some g → g < s.fresh)

/-! # Theorems -/

/-! ## C4 — stopping an already-idle leg -/

/-- C4 counterexample: on the freshly constructed (fully idle) state,
`stopSendingVideo` leaves the state unchanged but still emits the
`('sending', false)` state-change notification, contradicting the claim
that stopping an idle leg emits no state-change event. -/
theorem stopSendingVideo_idle_emits_event :
    (stopSendingVideo initialState).1 = initialState ∧
    (stopSendingVideo initialState).2 = [Event.videoStateChange .sending false] := by
  constructor <;> rfl

/-- C4 (amended): stopping an already-idle leg whose resources are already
released leaves the controller state (flags, connections, cache) unchanged,
but it always emits the `(legKind, false)` state-change event — the stop
functions have no already-idle guard. -/
theorem stop_idle_leg_state_and_event :
    (∀ s : SDKState, s.isSendingVideo = false → s.videoWs = none →
      s.videoPc = none → s.videoDc = none → s.videoInterval = false →
      s.videoElement = false →
      stopSendingVideo s = (s, [Event.videoStateChange .sending false])) ∧
    (∀ s : SDKState, s.isSendingAudio = false → s.audioWs = none →
      s.localStream = none →
      stopSendingAudio s = (s, [Event.audioStateChange .sending false])) := by
  constructor
  · intro s h1 h2 h3 h4 h5 h6
    obtain ⟨f1, f2, f3, f4, a1, a2, v1, v2, v3, ls, ve, vi, vc, rv, rk, fr⟩ := s
    simp only at h1 h2 h3 h4 h5 h6
    subst h1 h2 h3 h4 h5 h6
    simp [stopSendingVideo]
  · intro s h1 h2 h3
    obtain ⟨f1, f2, f3, f4, a1, a2, v1, v2, v3, ls, ve, vi, vc, rv, rk, fr⟩ := s
    simp only at h1 h2 h3
    subst h1 h2 h3
    simp [stopSendingAudio]

/-- C4 witness: instantiating the amended statement at the initial state. -/
theorem stop_idle_leg_state_and_event_witness :
    stopSendingVideo initialState =
      (initialState, [Event.videoStateChange .sending false]) ∧
    stopSendingAudio initialState =
      (initialState, [Event.audioStateChange .sending false]) :=
  ⟨stop_idle_leg_state_and_event.1 initialState rfl rfl rfl rfl rfl rfl,
   stop_idle_leg_state_and_event.2 initialState rfl rfl rfl⟩

/-! ## C2 — failed leg starts -/

/-- C2 counterexample: starting the send-video leg from the initial state
when the data channel never opens (the channel-open timeout) leaves
`isSendingVideo = true` — a half-started leg — and does not re-throw the
failure, contradicting the claim that a failed start reverts the leg to
Idle and re-throws. -/
theorem startSendingVideo_timeout_half_started :
    (startSendingVideo envChannelFails initialState).1.isSendingVideo = true ∧
    (startSendingVideo envChannelFails initialState).2.2 = false ∧
    (startSendingVideo envChannelFails initialState).2.1 = [Event.errorEvent] := by
  refine ⟨rfl, rfl, rfl⟩

/-- C2 (amended): failure handling differs per leg.  A failed
`startSendingAudio` (microphone or audio-socket failure) ends with the flag
false, exactly one emitted error, and the failure re-thrown.  A failed
`startListeningAudio` reverts its flag and emits one error but does not
re-throw.  A failed `startSendingVideo` or `startViewingVideo`
(channel-open timeout after the flag was set) emits exactly one error but
leaves the leg flag true — a half-started state — and does not re-throw. -/
theorem start_failure_paths :
    (∀ env s, s.isSendingAudio = false → env.micOk = false →
      (startSendingAudio env s).1.isSendingAudio = false ∧
      (startSendingAudio env s).2.1 = [Event.errorEvent] ∧
      (startSendingAudio env s).2.2 = true) ∧
    (∀ env s, s.isSendingAudio = false → env.micOk = true →
      env.audioWsOk = false →
      (startSendingAudio env s).1.isSendingAudio = false ∧
      (startSendingAudio env s).2.1 = [Event.errorEvent] ∧
      (startSendingAudio env s).2.2 = true) ∧
    (∀ env s, s.isListeningAudio = false → env.audioWsOk = false →
      (startListeningAudio env s).1.isListeningAudio = false ∧
      (startListeningAudio env s).2.1 = [Event.errorEvent] ∧
      (startListeningAudio env s).2.2 = false) ∧
    (∀ env s, s.isSendingVideo = false → env.cameraOk = true →
      env.videoChannelOpens = false → videoConnReady s = false →
      (startSendingVideo env s).1.isSendingVideo = true ∧
      (startSendingVideo env s).2.1 = [Event.errorEvent] ∧
      (startSendingVideo env s).2.2 = false) ∧
    (∀ env s, s.isViewingVideo = false → env.videoChannelOpens = false →
      videoConnReady s = false →
      (startViewingVideo env s).1.isViewingVideo = true ∧
      (startViewingVideo env s).2.1 = [Event.errorEvent] ∧
      (startViewingVideo env s).2.2 = false) := by
  refine ⟨?_, ?_, ?_, ?_, ?_⟩
  · intro env s hs hm
    simp [startSendingAudio, hs, hm]
  · intro env s hs hm hw
    simp [startSendingAudio, initializeAudioConnection, hs, hm, hw]
  · intro env s hs hw
    simp [startListeningAudio, initializeAudioConnection, hs, hw]
  · intro env s hs hc hop hr
    have hr1 : videoConnReady { s with videoElement := true, isSendingVideo := true } =
        false := by simpa [videoConnReady] using hr
    have hinit : initializeVideoConnection env
        { s with videoElement := true, isSendingVideo := true } =
        { s with videoElement := true, isSendingVideo := true,
                 videoWs := some s.fresh, videoPc := some (s.fresh + 1),
                 videoDc := none, fresh := s.fresh + 3 } := by
      simp [initializeVideoConnection, hr1, hop]
    have hr2 : videoConnReady
        { s with videoElement := true, isSendingVideo := true,
                 videoWs := some s.fresh, videoPc := some (s.fresh + 1),
                 videoDc := none, fresh := s.fresh + 3 } = false := by
      simp [videoConnReady]
    simp [startSendingVideo, hs, hc, hinit, hr2]
  · intro env s hs hop hr
    have hr1 : videoConnReady { s with isViewingVideo := true } = false := by
      simpa [videoConnReady] using hr
    have hinit : initializeVideoConnection env { s with isViewingVideo := true } =
        { s with isViewingVideo := true,
                 videoWs := some s.fresh, videoPc := some (s.fresh + 1),
                 videoDc := none, fresh := s.fresh + 3 } := by
      simp [initializeVideoConnection, hr1, hop]
    have hr2 : videoConnReady
        { s with isViewingVideo := true,
                 videoWs := some s.fresh, videoPc := some (s.fresh + 1),
                 videoDc := none, fresh := s.fresh + 3 } = false := by
      simp [videoConnReady]
    simp [startViewingVideo, hs, hinit, hr2]

/-- C2 witness: the amended statement instantiated at concrete inputs. -/
theorem start_failure_paths_witness :
    ((startSendingAudio ⟨false, true, true, true⟩ initialState).2.2 = true) ∧
    ((startListeningAudio ⟨true, true, false, true⟩ initialState).2.2 = false) ∧
    ((startSendingVideo envChannelFails initialState).1.isSendingVideo = true) ∧
    ((startViewingVideo envChannelFails initialState).1.isViewingVideo = true) :=
  ⟨(start_failure_paths.1 ⟨false, true, true, true⟩ initialState rfl rfl).2.2,
   (start_failure_paths.2.2.1 ⟨true, true, false, true⟩ initialState rfl rfl).2.2,
   (start_failure_paths.2.2.2.1 envChannelFails initialState rfl rfl rfl rfl).1,
   (start_failure_paths.2.2.2.2 envChannelFails initialState rfl rfl rfl).1⟩

/-! ## C3 — reconnect-on-toggle -/

/-- C3 counterexample: starting the send-video leg while the viewing leg
already holds a fully open video connection (socket 0, peer connection 1,
data channel 2) keeps those very objects — no teardown, no reconnect —
contradicting the claim that every start unconditionally tears down and
recreates the channel family's link and socket. -/
theorem startSendingVideo_reuses_open_link :
    (startSendingVideo envAllOk openVideoState).1.videoWs = some 0 ∧
    (startSendingVideo envAllOk openVideoState).1.videoPc = some 1 ∧
    (startSendingVideo envAllOk openVideoState).1.videoDc = some 2 ∧
    (startSendingVideo envAllOk openVideoState).2.2 = false := by
  refine ⟨rfl, rfl, rfl, rfl⟩

/-- C3 (amended): the audio legs do tear down and recreate their socket and
peer link on every successful start, but the video legs reuse the existing
video connection whenever socket, peer link and data channel are all open,
and only create fresh ones (without closing the old references) when the
connection is not fully open. -/
theorem reconnect_policy :
    (∀ env s, wfState s → s.isSendingAudio = false → env.micOk = true →
      env.audioWsOk = true →
      (startSendingAudio env s).1.audioWs ≠ s.audioWs ∧
      (startSendingAudio env s).1.audioWs.isSome = true ∧
      (startSendingAudio env s).1.audioPc ≠ s.audioPc ∧
      (startSendingAudio env s).1.audioPc.isSome = true) ∧
    (∀ env s, s.isSendingVideo = false → env.cameraOk = true →
      videoConnReady s = true →
      (startSendingVideo env s).1.videoWs = s.videoWs ∧
      (startSendingVideo env s).1.videoPc = s.videoPc ∧
      (startSendingVideo env s).1.videoDc = s.videoDc) ∧
    (∀ env s, wfState s → s.isSendingVideo = false → env.cameraOk = true →
      videoConnReady s = false →
      (startSendingVideo env s).1.videoWs ≠ s.videoWs ∧
      (startSendingVideo env s).1.videoWs.isSome = true ∧
      (startSendingVideo env s).1.videoPc ≠ s.videoPc ∧
      (startSendingVideo env s).1.videoPc.isSome = true) := by
  refine ⟨?_, ?_, ?_⟩
  · intro env s hwf hs hm hw
    have hres1 : (startSendingAudio env s).1.audioWs = some (s.fresh + 1) := by
      simp [startSendingAudio, initializeAudioConnection, hs, hm, hw]
    have hres2 : (startSendingAudio env s).1.audioPc = some (s.fresh + 3) := by
      simp [startSendingAudio, initializeAudioConnection, hs, hm, hw]
    refine ⟨?_, by simp [hres1], ?_, by simp [hres2]⟩
    · rw [hres1]
      intro hcontra
      rcases hws : s.audioWs with _ | g
      · rw [hws] at hcontra
        cases hcontra
      · rw [hws] at hcontra
        have hlt := hwf.1 g hws
        have heq := Option.some.inj hcontra
        omega
    · rw [hres2]
      intro hcontra
      rcases hpc : s.audioPc with _ | g
      · rw [hpc] at hcontra
        cases hcontra
      · rw [hpc] at hcontra
        have hlt := hwf.2.1 g hpc
        have heq := Option.some.inj hcontra
        omega
  · intro env s hs hc hr
    have hr1 : videoConnReady { s with videoElement := true, isSendingVideo := true } =
        true := by simpa [videoConnReady] using hr
    have hinit : initializeVideoConnection env
        { s with videoElement := true, isSendingVideo := true } =
        { s with videoElement := true, isSendingVideo := true } := by
      simp [initializeVideoConnection, hr1]
    simp [startSendingVideo, hs, hc, hinit, hr1]
  · intro env s hwf hs hc hr
    have hr1 : videoConnReady { s with videoElement := true, isSendingVideo := true } =
        false := by simpa [videoConnReady] using hr
    have hres : (startSendingVideo env s).1.videoWs = some s.fresh ∧
        (startSendingVideo env s).1.videoPc = some (s.fresh + 1) := by
      cases henv : env.videoChannelOpens with
      | false =>
        have hinit : initializeVideoConnection env
            { s with videoElement := true, isSendingVideo := true } =
            { s with videoElement := true, isSendingVideo := true,
                     videoWs := some s.fresh, videoPc := some (s.fresh + 1),
                     videoDc := none, fresh := s.fresh + 3 } := by
          simp [initializeVideoConnection, hr1, henv]
        have hready : videoConnReady
            { s with videoElement := true, isSendingVideo := true,
                     videoWs := some s.fresh, videoPc := some (s.fresh + 1),
                     videoDc := none, fresh := s.fresh + 3 } = false := by
          simp [videoConnReady]
        constructor
        · simp [startSendingVideo, hs, hc, hinit, hready]
        · simp [startSendingVideo, hs, hc, hinit, hready]
      | true =>
        have hinit : initializeVideoConnection env
            { s with videoElement := true, isSendingVideo := true } =
            { s with videoElement := true, isSendingVideo := true,
                     videoWs := some s.fresh, videoPc := some (s.fresh + 1),
                     videoDc := some (s.fresh + 2), fresh := s.fresh + 3 } := by
          simp [initializeVideoConnection, hr1, henv]
        have hready : videoConnReady
            { s with videoElement := true, isSendingVideo := true,
                     videoWs := some s.fresh, videoPc := some (s.fresh + 1),
                     videoDc := some (s.fresh + 2), fresh := s.fresh + 3 } = true := by
          simp [videoConnReady]
        constructor
        · simp [startSendingVideo, hs, hc, hinit, hready]
        · simp [startSendingVideo, hs, hc, hinit, hready]
    have hres1 := hres.1
    have hres2 := hres.2
    refine ⟨?_, by simp [hres1], ?_, by simp [hres2]⟩
    · rw [hres1]
      intro hcontra
      rcases hws : s.videoWs with _ | g
      · rw [hws] at hcontra
        cases hcontra
      · rw [hws] at hcontra
        have hlt := hwf.2.2.1 g hws
        have heq := Option.some.inj hcontra
        omega
    · rw [hres2]
      intro hcontra
      rcases hpc : s.videoPc with _ | g
      · rw [hpc] at hcontra
        cases hcontra
      · rw [hpc] at hcontra
        have hlt := hwf.2.2.2.1 g hpc
        have heq := Option.some.inj hcontra
        omega

/-- The freshness invariant holds in the initial state. -/
theorem initialState_wf : wfState initialState := by
  refine ⟨?_, ?_, ?_, ?_, ?_⟩ <;> intro g h <;> cases h

/-- C3 witness: the amended statement at concrete inputs — a fresh audio
start from the initial state recreates the audio connection, and a video
start over `openVideoState` reuses socket 0. -/
theorem reconnect_policy_witness :
    (startSendingAudio envAllOk initialState).1.audioWs ≠ initialState.audioWs ∧
    (startSendingVideo envAllOk openVideoState).1.videoWs = openVideoState.videoWs :=
  ⟨(reconnect_policy.1 envAllOk initialState initialState_wf rfl rfl rfl).1,
   (reconnect_policy.2.1 envAllOk openVideoState rfl rfl rfl).1⟩

/-! ## C5 — superseded cache entries and their resource handles -/

/-- C5: a valid frame from `"p1"` arrives while the cache already holds an
entry for `"p1"` under blob URL 3; the entry is overwritten with the fresh
URL 10, the handler reports a non-new participant, and URL 3 is never
passed to `URL.revokeObjectURL` — the superseded handle leaks.  Moreover
the inbound handler never revokes any handle on any input.  This
contradicts the claim (and the spec's `CachedFrame` ownership rule) that a
prior handle is released before its entry is overwritten. -/
theorem upsert_leaks_superseded_handle :
    (handleIncomingVideoMessage defaultConfig 0 frameP1 cacheState).1.receivedVideos =
      [(p1, ⟨10, 0, 8⟩)] ∧
    (handleIncomingVideoMessage defaultConfig 0 frameP1 cacheState).1.revoked = [] ∧
    (handleIncomingVideoMessage defaultConfig 0 frameP1 cacheState).2.2 =
      .accepted false ∧
    (∀ cfg now data s, (handleIncomingVideoMessage cfg now data s).1.revoked =
      s.revoked) := by
  refine ⟨by decide, by decide, by decide, ?_⟩
  intro cfg now data s
  unfold handleIncomingVideoMessage
  split
  · rfl
  · split
    · rfl
    · split
      · rfl
      · split
        · rfl
        · split
          · rfl
          · split
            · rfl
            · rfl

/-! ## C6 — reporting of evicted participants -/

/-- C6 counterexample: a sweep at `now = 3·10⁹ ns` over a cache holding one
entry with capture timestamp 0 removes that entry (age 3000 ms > 2000 ms)
yet produces no observer notification at all — `cleanupOldVideos` invokes
no callback and returns nothing — contradicting the claim that every
evicted participant is reported with a source-removed notification. -/
theorem sweep_evicts_without_notification :
    (cleanupOldVideos 3000000000 staleCacheState).1.receivedVideos = [] ∧
    (cleanupOldVideos 3000000000 staleCacheState).1.revoked = [5] ∧
    (cleanupOldVideos 3000000000 staleCacheState).2 = [] := by
  refine ⟨by decide, by decide, by decide⟩

/-- C6 (amended): the periodic sweep removes stale entries and revokes
their blob URLs but yields no identifiers and notifies no observer;
source-removed notifications are delivered only by the explicit
`video-remove` control message and by `stopViewingVideo`, which notifies
every entry still cached at shutdown. -/
theorem sweep_reporting :
    (∀ now s, (cleanupOldVideos now s).2 = []) ∧
    (∀ now s id v, (id, v) ∈ s.receivedVideos →
      v.timestamp + 2000000000 < now →
      v.url ∈ (cleanupOldVideos now s).1.revoked) ∧
    (∀ s, (stopViewingVideo s).2 =
      s.receivedVideos.map (fun e => Event.videoSourceRemove e.1) ++
      [Event.videoStateChange .viewing false]) ∧
    (∀ id s, (handleVideoRemove id s).2 = [Event.videoSourceRemove id]) := by
  refine ⟨fun now s => rfl, ?_, fun s => rfl, fun id s => rfl⟩
  intro now s id v hmem hold
  simp only [cleanupOldVideos, List.mem_append]
  right
  simp only [List.mem_map]
  refine ⟨(id, v), ?_, rfl⟩
  simp only [List.mem_filter]
  exact ⟨hmem, by simpa using hold⟩

/-- C6 witness: the amended statement at the concrete stale cache. -/
theorem sweep_reporting_witness :
    (cleanupOldVideos 3000000000 staleCacheState).2 = [] ∧
    (5 : Nat) ∈ (cleanupOldVideos 3000000000 staleCacheState).1.revoked ∧
    (stopViewingVideo staleCacheState).2 =
      [Event.videoSourceRemove p1, Event.videoStateChange .viewing false] :=
  ⟨sweep_reporting.1 3000000000 staleCacheState,
   sweep_reporting.2.1 3000000000 staleCacheState p1 ⟨5, 0, 1⟩
     (by decide) (by decide),
   sweep_reporting.2.2.1 staleCacheState⟩

/-! ## C7 — eviction threshold -/

/-- C7: the sweep removes a cache entry exactly when its stored capture
timestamp is more than 2000 ms old (strict inequality), releasing its
handle.  Concretely, for an entry stored at t = 0: a sweep at 2500 ms
evicts it and revokes its URL, a sweep at 1500 ms keeps it, and a sweep at
exactly 2000 ms also keeps it. -/
theorem sweep_eviction_threshold :
    (∀ now s id v, (id, v) ∈ (cleanupOldVideos now s).1.receivedVideos ↔
      ((id, v) ∈ s.receivedVideos ∧ ¬ v.timestamp + 2000000000 < now)) ∧
    (cleanupOldVideos 2500000000 staleCacheState).1.receivedVideos = [] ∧
    (cleanupOldVideos 2500000000 staleCacheState).1.revoked = [5] ∧
    (cleanupOldVideos 1500000000 staleCacheState).1.receivedVideos =
      [(p1, ⟨5, 0, 1⟩)] ∧
    (cleanupOldVideos 2000000000 staleCacheState).1.receivedVideos =
      [(p1, ⟨5, 0, 1⟩)] := by
  refine ⟨?_, by decide, by decide, by decide, by decide⟩
  intro now s id v
  simp only [cleanupOldVideos, List.mem_filter, decide_not]
  constructor
  · intro h
    exact ⟨h.1, by simpa using h.2⟩
  · intro h
    exact ⟨h.1, by simpa using h.2⟩

/-! ## C8 — identity-length rejection -/

/-- Once the header length checks pass, no later branch of the decoder
returns `invalidIdentityLength`. -/
theorem decodeFrame_not_invalid_of_header_ok (data : List Nat) (n : Nat)
    (h20 : ¬ data.length < 20) (hread : readU32BE data 0 = some n)
    (hc2 : (n = 0 || n > 1000 || n + 16 > data.length) = false) :
    decodeFrame data ≠ .err .invalidIdentityLength := by
  simp only [decodeFrame]
  rw [if_neg h20]
  simp only [hread, hc2, Bool.false_eq_true, if_false]
  split
  · simp
  · split
    · split
      · simp
      · simp
    · simp

/-- C8: for a buffer of at least 20 bytes whose 4-byte big-endian header
declares identity length `n`, the decoder rejects with
`invalidIdentityLength` exactly when `n = 0`, `n > 1000`, or the identity
plus the 12-byte trailer would overrun the buffer (`n + 16 > length`); and
on any such rejection `handleIncomingVideoMessage` leaves the state — in
particular the cache — unchanged and emits nothing. -/
theorem invalid_identity_length_rejection :
    (∀ data n, 20 ≤ data.length → readU32BE data 0 = some n →
      (decodeFrame data = .err .invalidIdentityLength ↔
        (n = 0 ∨ 1000 < n ∨ data.length < n + 16))) ∧
    (∀ cfg now data s, decodeFrame data = .err .invalidIdentityLength →
      handleIncomingVideoMessage cfg now data s =
        (s, [], .decodeFailed .invalidIdentityLength)) := by
  constructor
  · intro data n hlen hread
    have h20 : ¬ data.length < 20 := by omega
    by_cases hc : n = 0 ∨ 1000 < n ∨ data.length < n + 16
    · have hc2 : (n = 0 || n > 1000 || n + 16 > data.length) = true := by
        rcases hc with h | h | h
        · simp [h]
        · simp [h]
        · simp [h]
      constructor
      · intro _
        exact hc
      · intro _
        simp only [decodeFrame]
        rw [if_neg h20]
        simp [hread, hc2]
    · have hc2 : (n = 0 || n > 1000 || n + 16 > data.length) = false := by
        push_neg at hc
        simp [hc.1, Nat.not_lt.mpr hc.2.1, Nat.not_lt.mpr hc.2.2]
      constructor
      · intro h
        exact absurd h (decodeFrame_not_invalid_of_header_ok data n h20 hread hc2)
      · intro h
        exact absurd h hc
  · intro cfg now data s h
    simp [handleIncomingVideoMessage, h]

set_option maxRecDepth 8192 in
/-- C8 witness: the 1021-byte buffer `longIdBuf` declares identity length
1001 with sufficient trailing bytes; it is rejected with
`invalidIdentityLength` and the handler leaves the initial state
unchanged. -/
theorem invalid_identity_length_rejection_witness :
    decodeFrame longIdBuf = .err .invalidIdentityLength ∧
    handleIncomingVideoMessage defaultConfig 0 longIdBuf initialState =
      (initialState, [], .decodeFailed .invalidIdentityLength) := by
  have h1 : decodeFrame longIdBuf = .err .invalidIdentityLength :=
    (invalid_identity_length_rejection.1 longIdBuf 1001 (by decide)
      (by decide)).mpr (Or.inr (Or.inl (by decide)))
  exact ⟨h1,
    invalid_identity_length_rejection.2 defaultConfig 0 longIdBuf initialState h1⟩

/-! ## C9 — stale-frame rejection -/

/-- A message whose header fails to parse is discarded with the decode
error and no state change. -/
theorem handle_err_eq (cfg : Config) (now : Nat) (data : List Nat)
    (s : SDKState) (e : DecodeErr) (h : decodeFrame data = .err e) :
    handleIncomingVideoMessage cfg now data s = (s, [], .decodeFailed e) := by
  simp [handleIncomingVideoMessage, h]

/-- A frame older than the 1000 ms threshold is discarded as stale with no
state change. -/
theorem handle_stale_eq (cfg : Config) (now : Nat) (data : List Nat)
    (s : SDKState) (f : Frame) (hok : decodeFrame data = .ok f)
    (hst : f.timestamp + 1000000000 < now) :
    handleIncomingVideoMessage cfg now data s = (s, [], .stale) := by
  simp [handleIncomingVideoMessage, hok, hst]

/-- A frame within the freshness threshold never takes the stale branch. -/
theorem handle_not_stale (cfg : Config) (now : Nat) (data : List Nat)
    (s : SDKState) (f : Frame) (hok : decodeFrame data = .ok f)
    (hst : ¬ f.timestamp + 1000000000 < now) :
    (handleIncomingVideoMessage cfg now data s).2.2 ≠ .stale := by
  simp only [handleIncomingVideoMessage, hok]
  rw [if_neg hst]
  split
  · simp
  · split
    · simp
    · split
      · simp
      · split
        · simp
        · simp

/-- C9: for any message whose header parses to a frame `f`, the handler
takes the stale branch exactly when `(now − f.timestamp) / 1e6` exceeds
the 1000 ms threshold (in integer nanoseconds:
`f.timestamp + 10⁹ < now`); a stale rejection leaves the state — in
particular the previously cached frame for that participant — unchanged
and emits nothing.  Concretely, the `"p1"` frame captured at t = 0 is
rejected at `now` = 1500 ms and the prior cached entry survives
untouched. -/
theorem stale_frame_rejection :
    (∀ cfg now data s f, decodeFrame data = .ok f →
      ((handleIncomingVideoMessage cfg now data s).2.2 = .stale ↔
        f.timestamp + 1000000000 < now)) ∧
    (∀ cfg now data s, (handleIncomingVideoMessage cfg now data s).2.2 = .stale →
      (handleIncomingVideoMessage cfg now data s).1 = s ∧
      (handleIncomingVideoMessage cfg now data s).2.1 = []) ∧
    (handleIncomingVideoMessage defaultConfig 1500000000 frameP1 cacheState).2.2 =
      .stale ∧
    (handleIncomingVideoMessage defaultConfig 1500000000 frameP1 cacheState).1 =
      cacheState := by
  refine ⟨?_, ?_, by decide, by decide⟩
  · intro cfg now data s f hok
    constructor
    · intro h
      by_contra hst
      exact handle_not_stale cfg now data s f hok hst h
    · intro hst
      rw [handle_stale_eq cfg now data s f hok hst]
  · intro cfg now data s h
    rcases hdec : decodeFrame data with e | f
    · rw [handle_err_eq cfg now data s e hdec]
      exact ⟨rfl, rfl⟩
    · by_cases hst : f.timestamp + 1000000000 < now
      · rw [handle_stale_eq cfg now data s f hdec hst]
        exact ⟨rfl, rfl⟩
      · exact absurd h (handle_not_stale cfg now data s f hdec hst)

/-- C9 witness: the general stale criterion applied to the concrete frame
and cache of the statement's last two conjuncts. -/
theorem stale_frame_rejection_witness :
    (handleIncomingVideoMessage defaultConfig 1500000000 frameP1 cacheState).2.2 =
      .stale ∧
    (handleIncomingVideoMessage defaultConfig 1500000000 frameP1 cacheState).1 =
      cacheState :=
  ⟨(stale_frame_rejection.1 defaultConfig 1500000000 frameP1 cacheState
      ⟨p1, 0, 8, jpeg64⟩ (by decide)).mpr (by decide),
   (stale_frame_rejection.2.1 defaultConfig 1500000000 frameP1 cacheState
      ((stale_frame_rejection.1 defaultConfig 1500000000 frameP1 cacheState
        ⟨p1, 0, 8, jpeg64⟩ (by decide)).mpr (by decide))).1⟩

/-! ## C1 — encode/decode round trip -/

/-- Indexing past a list prefix lands in the suffix. -/
theorem getD_append_off (pre l : List Nat) (i : Nat) :
    (pre ++ l).getD (pre.length + i) 0 = l.getD i 0 := by
  rw [List.getD_append_right pre l 0 (pre.length + i) (by omega)]
  congr 1
  omega

/-- The wire buffer is header plus payload long. -/
theorem length_encodeFrame (id : List Nat) (ts seq : Nat) (payload : List Nat) :
    (encodeFrame id ts seq payload).length = 16 + id.length + payload.length := by
  simp [encodeFrame, u32BE, u64BE]
  omega

/-- Reading a 32-bit big-endian field back from the position where it was
written recovers the value. -/
theorem readU32BE_append (pre : List Nat) (x : Nat) (hx : x < 2 ^ 32)
    (r : List Nat) (off : Nat) (hoff : off = pre.length) :
    readU32BE (pre ++ (u32BE x ++ r)) off = some x := by
  subst hoff
  have h4 : pre.length + 4 ≤ (pre ++ (u32BE x ++ r)).length := by
    simp [u32BE]
  rw [readU32BE, if_pos h4]
  have e0 : (pre ++ (u32BE x ++ r)).getD pre.length 0 = x / 2 ^ 24 % 256 := by
    have h := getD_append_off pre (u32BE x ++ r) 0
    simpa [u32BE] using h
  have e1 : (pre ++ (u32BE x ++ r)).getD (pre.length + 1) 0 = x / 2 ^ 16 % 256 := by
    have h := getD_append_off pre (u32BE x ++ r) 1
    simpa [u32BE] using h
  have e2 : (pre ++ (u32BE x ++ r)).getD (pre.length + 2) 0 = x / 2 ^ 8 % 256 := by
    have h := getD_append_off pre (u32BE x ++ r) 2
    simpa [u32BE] using h
  have e3 : (pre ++ (u32BE x ++ r)).getD (pre.length + 3) 0 = x % 256 := by
    have h := getD_append_off pre (u32BE x ++ r) 3
    simpa [u32BE] using h
  rw [e0, e1, e2, e3]
  have hval : ((x / 2 ^ 24 % 256 * 256 + x / 2 ^ 16 % 256) * 256 +
      x / 2 ^ 8 % 256) * 256 + x % 256 = x := by omega
  rw [hval]

/-- Reading a 64-bit big-endian field back from the position where it was
written recovers the value. -/
theorem readU64BE_append (pre : List Nat) (x : Nat) (hx : x < 2 ^ 64)
    (r : List Nat) (off : Nat) (hoff : off = pre.length) :
    readU64BE (pre ++ (u64BE x ++ r)) off = some x := by
  subst hoff
  have h8 : pre.length + 8 ≤ (pre ++ (u64BE x ++ r)).length := by
    simp [u64BE]
  rw [readU64BE, if_pos h8]
  have e0 : (pre ++ (u64BE x ++ r)).getD pre.length 0 = x / 2 ^ 56 % 256 := by
    have h := getD_append_off pre (u64BE x ++ r) 0
    simpa [u64BE] using h
  have e1 : (pre ++ (u64BE x ++ r)).getD (pre.length + 1) 0 = x / 2 ^ 48 % 256 := by
    have h := getD_append_off pre (u64BE x ++ r) 1
    simpa [u64BE] using h
  have e2 : (pre ++ (u64BE x ++ r)).getD (pre.length + 2) 0 = x / 2 ^ 40 % 256 := by
    have h := getD_append_off pre (u64BE x ++ r) 2
    simpa [u64BE] using h
  have e3 : (pre ++ (u64BE x ++ r)).getD (pre.length + 3) 0 = x / 2 ^ 32 % 256 := by
    have h := getD_append_off pre (u64BE x ++ r) 3
    simpa [u64BE] using h
  have e4 : (pre ++ (u64BE x ++ r)).getD (pre.length + 4) 0 = x / 2 ^ 24 % 256 := by
    have h := getD_append_off pre (u64BE x ++ r) 4
    simpa [u64BE] using h
  have e5 : (pre ++ (u64BE x ++ r)).getD (pre.length + 5) 0 = x / 2 ^ 16 % 256 := by
    have h := getD_append_off pre (u64BE x ++ r) 5
    simpa [u64BE] using h
  have e6 : (pre ++ (u64BE x ++ r)).getD (pre.length + 6) 0 = x / 2 ^ 8 % 256 := by
    have h := getD_append_off pre (u64BE x ++ r) 6
    simpa [u64BE] using h
  have e7 : (pre ++ (u64BE x ++ r)).getD (pre.length + 7) 0 = x % 256 := by
    have h := getD_append_off pre (u64BE x ++ r) 7
    simpa [u64BE] using h
  rw [e0, e1, e2, e3, e4, e5, e6, e7]
  have hval : x / 2 ^ 56 % 256 * 2 ^ 56 + x / 2 ^ 48 % 256 * 2 ^ 48 +
      x / 2 ^ 40 % 256 * 2 ^ 40 + x / 2 ^ 32 % 256 * 2 ^ 32 +
      x / 2 ^ 24 % 256 * 2 ^ 24 + x / 2 ^ 16 % 256 * 2 ^ 16 +
      x / 2 ^ 8 % 256 * 2 ^ 8 + x % 256 = x := by omega
  rw [hval]

/-- C1 counterexample: two valid input tuples in the claim's sense —
identities of 1 byte with u64 timestamp, u32 sequence number, and a
non-empty payload — whose encodings the decoder rejects instead of
reconstructing.  `"a"` with a 1-byte payload encodes to an 18-byte message,
under the decoder's 20-byte minimum, so it is dropped as truncated; a
one-space identity is dropped by the blank-identity check. -/
theorem roundtrip_counterexample :
    decodeFrame (encodeFrame [97] 0 0 [65]) = .err .truncated ∧
    decodeFrame (encodeFrame [32] 0 0 [65, 66, 67]) = .err .blankIdentity := by
  refine ⟨by decide, by decide⟩

/-- C1 (amended): the round trip holds for every identity of 1–1000 UTF-8
bytes containing at least one non-whitespace printable ASCII byte, every
timestamp below 2^64 and sequence number below 2^32, and every non-empty
payload, provided additionally that identity and payload together hold at
least 4 bytes (so the 16-byte-header message reaches the decoder's 20-byte
minimum): decoding the encoded message reconstructs identity, timestamp,
sequence number and payload exactly. -/
theorem frame_roundtrip (id : List Nat) (ts seq : Nat) (payload : List Nat)
    (h1 : 1 ≤ id.length) (h2 : id.length ≤ 1000)
    (h3 : payload ≠ []) (h4 : 4 ≤ id.length + payload.length)
    (h5 : ∃ b ∈ id, 32 < b ∧ b < 127)
    (h6 : ts < 2 ^ 64) (h7 : seq < 2 ^ 32) :
    decodeFrame (encodeFrame id ts seq payload) = .ok ⟨id, ts, seq, payload⟩ := by
  have hlen := length_encodeFrame id ts seq payload
  have h20 : ¬ (encodeFrame id ts seq payload).length < 20 := by
    rw [hlen]; omega
  have hread : readU32BE (encodeFrame id ts seq payload) 0 = some id.length := by
    have h := readU32BE_append [] id.length (by omega)
      (id ++ (u64BE ts ++ (u32BE seq ++ payload))) 0 (by simp)
    simpa [encodeFrame, List.append_assoc] using h
  have hcond : (id.length = 0 || id.length > 1000 ||
      id.length + 16 > (encodeFrame id ts seq payload).length) = false := by
    rw [hlen]
    simp only [Bool.or_eq_false_iff, decide_eq_false_iff_not]
    refine ⟨⟨?_, ?_⟩, ?_⟩ <;> omega
  have hdrop4 : (encodeFrame id ts seq payload).drop 4 =
      id ++ (u64BE ts ++ (u32BE seq ++ payload)) := by
    simp [encodeFrame, u32BE, List.append_assoc]
  have hident : ((encodeFrame id ts seq payload).drop 4).take id.length = id := by
    rw [hdrop4]
    exact List.take_left id (u64BE ts ++ (u32BE seq ++ payload))
  have hblank : (id.all isJsWhitespaceByte) = false := by
    obtain ⟨b, hbmem, hb1, hb2⟩ := h5
    refine Bool.eq_false_iff.mpr ?_
    intro hall
    have hb := List.all_eq_true.mp hall b hbmem
    simp only [isJsWhitespaceByte, Bool.or_eq_true, beq_iff_eq] at hb
    omega
  have hread64 : readU64BE (encodeFrame id ts seq payload) (4 + id.length) =
      some ts := by
    have h := readU64BE_append (u32BE id.length ++ id) ts h6
      (u32BE seq ++ payload) (4 + id.length) (by simp [u32BE]; omega)
    simpa [encodeFrame, List.append_assoc] using h
  have hread32 : readU32BE (encodeFrame id ts seq payload) (12 + id.length) =
      some seq := by
    have h := readU32BE_append (u32BE id.length ++ (id ++ u64BE ts)) seq h7
      payload (12 + id.length) (by simp [u32BE, u64BE]; omega)
    simpa [encodeFrame, List.append_assoc] using h
  have hdrop16 : (encodeFrame id ts seq payload).drop (16 + id.length) =
      payload := by
    have h := List.drop_left (u32BE id.length ++ (id ++ (u64BE ts ++ u32BE seq)))
      payload
    have hl : (u32BE id.length ++ (id ++ (u64BE ts ++ u32BE seq))).length =
        16 + id.length := by
      simp [u32BE, u64BE]
      omega
    rw [hl] at h
    simpa [encodeFrame, List.append_assoc] using h
  have hpay : ¬ payload.length = 0 := by
    simpa [List.length_eq_zero] using h3
  simp only [decodeFrame]
  rw [if_neg h20]
  simp only [hread, hcond, Bool.false_eq_true, if_false, hident, hblank,
    hread64, hread32, hdrop16]
  rw [if_neg hpay]

/-- C1 witness: the amended round trip at a concrete tuple — identity
`"p1"`, timestamp 5, sequence 7, a 3-byte payload. -/
theorem frame_roundtrip_witness :
    decodeFrame (encodeFrame p1 5 7 [9, 8, 7]) = .ok ⟨p1, 5, 7, [9, 8, 7]⟩ :=
  frame_roundtrip p1 5 7 [9, 8, 7] (by decide) (by decide) (by decide)
    (by decide) ⟨112, by decide, by decide, by decide⟩ (by decide) (by decide)

/-! ## C10 — bounds of buffer accesses -/

/-- Every multi-byte header read in the decoder is covered by a preceding
length check: the out-of-bounds branch is unreachable on every input. -/
theorem decodeFrame_ne_oob (data : List Nat) : decodeFrame data ≠ .err .oob := by
  simp only [decodeFrame]
  split
  · simp
  · rename_i h20
    have h4 : 0 + 4 ≤ data.length := by omega
    rcases hr : readU32BE data 0 with _ | n
    · rw [readU32BE, if_pos h4] at hr
      cases hr
    · simp only [hr]
      split
      · simp
      · rename_i hcond
        have hc : (¬ n = 0 ∧ n ≤ 1000) ∧ n + 16 ≤ data.length := by
          simpa using hcond
        rcases h64 : readU64BE data (4 + n) with _ | ts
        · rw [readU64BE, if_pos (by omega)] at h64
          cases h64
        · rcases h32 : readU32BE data (12 + n) with _ | fn
          · rw [readU32BE, if_pos (by omega)] at h32
            cases h32
          · split
            · simp
            · simp only [h64, h32]
              split
              · simp
              · simp

/-- Every index the JPEG scanner reads is at most the buffer length: the
only access that can fall outside the buffer is one position past its
end. -/
theorem jpegScanAux_accesses_le (data : List Nat) :
    ∀ fuel offset i, i ∈ (jpegScanAux data offset fuel).2 → i ≤ data.length := by
  intro fuel
  induction fuel with
  | zero =>
    intro offset i h
    simp [jpegScanAux] at h
  | succ fuel ih =>
    intro offset i h
    simp only [jpegScanAux] at h
    split at h
    · rename_i hguard
      split at h
      · split at h
        · rename_i hsof
          simp only [List.mem_cons, List.not_mem_nil, or_false] at h
          omega
        · split at h
          · rename_i hsofFail hskip
            simp only [List.cons_append, List.nil_append, List.mem_cons] at h
            rcases h with h | h | h | h | h
            · omega
            · omega
            · omega
            · omega
            · exact ih _ _ h
          · simp only [List.mem_cons, List.not_mem_nil, or_false] at h
            omega
      · simp only [List.cons_append, List.nil_append, List.mem_cons] at h
        rcases h with h | h | h
        · omega
        · omega
        · exact ih _ _ h
    · simp at h

/-- C10 counterexample: on the 5-byte payload `FF D8 FF E0 00` the JPEG
dimension scanner reads index 5 — one past the end of the buffer — while
computing a segment length: the read `data[offset+3]` is guarded only by
`offset + 2 < length`.  The input is reachable from the inbound handler:
the full wire message below passes the magic check, enters the scanner,
and is then discarded as unparseable. -/
theorem jpeg_scanner_reads_past_end :
    [255, 216, 255, 224, 0].length = 5 ∧
    (5 : Nat) ∈ (jpegScanAux [255, 216, 255, 224, 0] 2 5).2 ∧
    getJPEGDimensions [255, 216, 255, 224, 0] = none ∧
    (handleIncomingVideoMessage defaultConfig 0
      (encodeFrame p1 0 1 [255, 216, 255, 224, 0]) initialState).2.2 =
      .unparseable := by
  refine ⟨by decide, by decide, by decide, by decide⟩

/-- C10 (amended): every multi-byte read of the inbound frame handler's
header parser is covered by a preceding bounds check (the out-of-bounds
branch is unreachable for every input), and every index the JPEG dimension
scanner reads is at most the buffer length — the single possible
out-of-range access is the segment-length low byte exactly one position
past the end, which JS coerces to 0, so the handler never propagates an
exception. -/
theorem buffer_access_bounds :
    (∀ data, decodeFrame data ≠ .err .oob) ∧
    (∀ data fuel offset i, i ∈ (jpegScanAux data offset fuel).2 →
      i ≤ data.length) :=
  ⟨decodeFrame_ne_oob, fun data => jpegScanAux_accesses_le data⟩

/-- C10 witness: the bound applied at the concrete overrunning access —
the scanner's read of index 5 on the 5-byte buffer — and the unreachable
out-of-bounds branch at a concrete short buffer. -/
theorem buffer_access_bounds_witness :
    (5 : Nat) ≤ [255, 216, 255, 224, 0].length ∧
    decodeFrame [0, 1, 2] ≠ .err .oob :=
  ⟨buffer_access_bounds.2 [255, 216, 255, 224, 0] 5 2 5 (by decide),
   buffer_access_bounds.1 [0, 1, 2]⟩

end TankRTC
